import Mathlib

/-!
Shallow embedding of the cloudbridge OpenStack provider services
(`cloudbridge/providers/openstack/services.py`) and the GCE key-pair helper
(`cloudbridge/cloud/providers/gce/helpers.py`).

The vendor clients (`nova`, `cinder`, the `cryptography` library) are external
collaborators: every embedded service method takes the backend's response as an
explicit argument (an `Except`/`Option` value: `.error` models a raised backend
exception, `.ok none` a falsy return, `.ok (some r)` a truthy record) and
returns the backend call payload it would issue and/or the wrapped result.
Python's dynamically typed object-or-id parameters are modelled by the `PyVal`
sum type; Python attribute access that can raise `AttributeError` is modelled
by `PyVal.getAttr` returning `Except`.
-/

set_option autoImplicit false

namespace CloudBridge

/-- Decidable equality for `Except`, used to evaluate the embedded services on
concrete inputs. -/
instance exceptDecEq {ε α : Type} [DecidableEq ε] [DecidableEq α] :
    DecidableEq (Except ε α) := fun a b =>
  match a, b with
  | .ok x, .ok y =>
    if h : x = y then .isTrue (by rw [h]) else .isFalse (fun hh => h (Except.ok.inj hh))
  | .ok _, .error _ => .isFalse (fun hh => Except.noConfusion hh)
  | .error _, .ok _ => .isFalse (fun hh => Except.noConfusion hh)
  | .error e, .error f =>
    if h : e = f then .isTrue (by rw [h]) else .isFalse (fun hh => h (Except.error.inj hh))

/-- An element of a Python list passed as the `security_groups` argument:
either a domain `SecurityGroup` object or a plain string. -/
inductive SGItem where
  | sg (id name description : String)
  | strv (s : String)
  deriving DecidableEq, Repr

/-- A dynamically typed Python value as it appears in the service-method
arguments of `services.py`: `None`, a string, a list (of security-group-like
elements), or one of the domain resource objects whose classes the code
inspects with `isinstance`. Domain objects carry the single attribute field
the service layer reads. -/
inductive PyVal where
  | none
  | str (s : String)
  | list (xs : List SGItem)
  | baseSecurityGroup (id name description : String)
  | placementZone (name : String)
  | osSnapshot (snapshot_id : String)
  | osVolume (volume_id : String)
  | machineImage (image_id : String)
  | instanceType (id name : String)
  | keyPair (name : String)
  deriving DecidableEq, Repr

/-- Python errors the service-layer code itself can raise. -/
inductive PyError where
  | attributeError
  | notImplementedError (msg : String)
  deriving DecidableEq, Repr

/-- Failure modes of a backend (vendor client) call: the distinguishable
not-found conditions (`novaclient.exceptions.NotFound`,
`cinderclient.exceptions.NotFound`) and any other backend error. -/
inductive BackendError where
  | novaNotFound
  | cinderNotFound
  | other (msg : String)
  deriving DecidableEq, Repr

/-- Python truthiness for the modelled values: `None`, the empty string and
the empty list are falsy; every object is truthy. -/
def PyVal.truthy : PyVal → Bool
  | .none => false
  | .str s => !s.isEmpty
  | .list xs => !xs.isEmpty
  | _ => true

/-- `isinstance(v, PlacementZone)`. -/
def PyVal.isPlacementZone : PyVal → Bool
  | .placementZone _ => true
  | _ => false

/-- `isinstance(v, OpenStackSnapshot)`. -/
def PyVal.isOSSnapshot : PyVal → Bool
  | .osSnapshot _ => true
  | _ => false

/-- `isinstance(v, OpenStackVolume)`. -/
def PyVal.isOSVolume : PyVal → Bool
  | .osVolume _ => true
  | _ => false

/-- `isinstance(v, MachineImage)`. -/
def PyVal.isMachineImage : PyVal → Bool
  | .machineImage _ => true
  | _ => false

/-- `isinstance(v, InstanceType)`. -/
def PyVal.isInstanceType : PyVal → Bool
  | .instanceType _ _ => true
  | _ => false

/-- `isinstance(v, KeyPair)`. -/
def PyVal.isKeyPair : PyVal → Bool
  | .keyPair _ => true
  | _ => false

/-- Python attribute access `v.attr`; raises `AttributeError` (modelled as
`Except.error`) when the value has no such attribute — in particular on
`None`, strings and lists. Modelled from the spec: the attribute fields of the
domain resource objects (`resources.py` / `base.py` / `interfaces.py` are not
under `src/`) follow the spec's data model, e.g. `Snapshot: {snapshot_id, …}`,
`Volume: {volume_id, …}`, `InstanceType: {id, name, …}`. -/
def PyVal.getAttr : PyVal → String → Except PyError PyVal
  | .baseSecurityGroup i _ _, "id" => .ok (.str i)
  | .baseSecurityGroup _ n _, "name" => .ok (.str n)
  | .baseSecurityGroup _ _ d, "description" => .ok (.str d)
  | .placementZone n, "name" => .ok (.str n)
  | .osSnapshot sid, "snapshot_id" => .ok (.str sid)
  | .osVolume vid, "volume_id" => .ok (.str vid)
  | .machineImage iid, "image_id" => .ok (.str iid)
  | .instanceType i _, "id" => .ok (.str i)
  | .instanceType _ n, "name" => .ok (.str n)
  | .keyPair n, "name" => .ok (.str n)
  | _, _ => .error .attributeError

/-- A raw `nova.security_groups` record. -/
structure SGRecord where
  id : String
  name : String
  description : String
  deriving DecidableEq, Repr

/-- A raw `nova.flavors` record. -/
structure FlavorRecord where
  id : String
  name : String
  deriving DecidableEq, Repr

/-- A raw `nova.images` record. -/
structure ImageRecord where
  id : String
  deriving DecidableEq, Repr

/-- A raw `cinder.volumes` record. -/
structure VolRecord where
  id : String
  deriving DecidableEq, Repr

/-- A raw `cinder.volume_snapshots` record. -/
structure SnapRecord where
  id : String
  deriving DecidableEq, Repr

/-- A raw `nova.servers` record. -/
structure ServerRecord where
  id : String
  deriving DecidableEq, Repr

/-- A raw `nova.availability_zones` record. -/
structure AZRecord where
  zoneName : String
  deriving DecidableEq, Repr

/-- Modelled from the spec: `BaseSecurityGroup` (from `base.py`, not under
`src/`) is a plain value object holding id, name and description — the three
positional constructor arguments `services.py` passes it. -/
structure BaseSecurityGroup where
  id : String
  name : String
  description : String
  deriving DecidableEq, Repr

/-- Modelled from the spec: `OpenStackMachineImage` (from `resources.py`, not
under `src/`) is a thin wrapper around whatever vendor record the constructor
receives (`none` models wrapping a falsy value). -/
structure OpenStackMachineImage where
  record : Option ImageRecord
  deriving DecidableEq, Repr

/-- Modelled from the spec: `OpenStackVolume` wraps the vendor volume record
it is constructed with, falsy or not. -/
structure OpenStackVolume where
  record : Option VolRecord
  deriving DecidableEq, Repr

/-- Modelled from the spec: `OpenStackSnapshot` wraps the vendor snapshot
record it is constructed with, falsy or not. -/
structure OpenStackSnapshot where
  record : Option SnapRecord
  deriving DecidableEq, Repr

/-- Modelled from the spec: `OpenStackInstance` wraps the vendor server
record it is constructed with. -/
structure OpenStackInstance where
  record : Option ServerRecord
  deriving DecidableEq, Repr

/-- Modelled from the spec: `OpenStackInstanceType` projects a vendor flavor
record; its `id` and `name` attributes are the flavor's. -/
structure OpenStackInstanceType where
  flavor : FlavorRecord
  deriving DecidableEq, Repr

/-- Modelled from the spec: the instance type's `id` attribute. -/
def OpenStackInstanceType.id (it : OpenStackInstanceType) : String :=
  it.flavor.id

/-- Modelled from the spec: the instance type's `name` attribute. -/
def OpenStackInstanceType.name (it : OpenStackInstanceType) : String :=
  it.flavor.name

/-- Modelled from the spec: `OpenStackRegion` wraps a vendor availability-zone
record. -/
structure OpenStackRegion where
  zone : AZRecord
  deriving DecidableEq, Repr

/-! ## OpenStackSecurityGroupService -/

/-- `OpenStackSecurityGroupService.list`: wraps each vendor group in a
`BaseSecurityGroup(group.id, group.name, group.description)`. -/
def securityGroupList (groups : List SGRecord) : List BaseSecurityGroup :=
  groups.map fun group => ⟨group.id, group.name, group.description⟩

/-- `OpenStackSecurityGroupService.create`: `sg` is what
`nova.security_groups.create(name, description)` returned (`none` = falsy).
On a truthy record the code returns `BaseSecurityGroup(sg.id, name,
description)`; on a falsy one it returns `None`. -/
def securityGroupCreate (name description : String) (sg : Option SGRecord) :
    Option BaseSecurityGroup :=
  match sg with
  | some r => some ⟨r.id, name, description⟩
  | Option.none => Option.none

/-- `OpenStackSecurityGroupService.get`: there is no try/except around
`nova.security_groups.get(group_id)`, so a backend exception propagates; a
truthy return is wrapped, a falsy return maps to `None`. -/
def securityGroupGet (backendResult : Except BackendError (Option SGRecord)) :
    Except BackendError (Option BaseSecurityGroup) :=
  match backendResult with
  | .ok (some sg) => .ok (some ⟨sg.id, sg.name, sg.description⟩)
  | .ok Option.none => .ok Option.none
  | .error e => .error e

/-! ## OpenStackImageService -/

/-- `OpenStackImageService.get_image`: wraps `nova.images.get(image_id)` in
`OpenStackMachineImage`, catching only `novaclient`'s `NotFound` (returning
`None`); other backend errors propagate. -/
def get_image (backendResult : Except BackendError (Option ImageRecord)) :
    Except BackendError (Option OpenStackMachineImage) :=
  match backendResult with
  | .ok r => .ok (some ⟨r⟩)
  | .error .novaNotFound => .ok Option.none
  | .error e => .error e

/-- `OpenStackImageService.find_image`: unconditionally raises
`NotImplementedError`; the first component is the list of backend endpoints
invoked (always empty). -/
def find_image (_name : PyVal) : List String × Except PyError PyVal :=
  ([], .error (.notImplementedError "find_image not implemented by this provider"))

/-- `OpenStackImageService.list_images`. -/
def list_images (images : List ImageRecord) : List OpenStackMachineImage :=
  images.map fun image => ⟨some image⟩

/-! ## OpenStackInstanceTypesService -/

/-- `OpenStackInstanceTypesService.list`: wraps each vendor flavor in an
`OpenStackInstanceType`. -/
def instance_types_list (flavors : List FlavorRecord) : List OpenStackInstanceType :=
  flavors.map OpenStackInstanceType.mk

/-- `OpenStackInstanceTypesService.find_by_name`:
`next((itype for itype in self.list() if itype.name == name), None)`.
The argument is a dynamically typed value; Python `==` between a string and a
non-string is `False`. -/
def find_by_name (flavors : List FlavorRecord) (name : PyVal) : Option OpenStackInstanceType :=
  (instance_types_list flavors).find? fun itype => PyVal.str itype.name == name

/-! ## OpenStackVolumeService -/

/-- `OpenStackVolumeService.get_volume`: wraps `cinder.volumes.get(volume_id)`
in `OpenStackVolume`, catching only `cinderclient`'s `NotFound` (returning
`None`); other backend errors propagate. -/
def get_volume (backendResult : Except BackendError (Option VolRecord)) :
    Except BackendError (Option OpenStackVolume) :=
  match backendResult with
  | .ok r => .ok (some ⟨r⟩)
  | .error .cinderNotFound => .ok Option.none
  | .error e => .error e

/-- `OpenStackVolumeService.find_volume`: unconditionally raises
`NotImplementedError`; no backend endpoint is invoked. -/
def find_volume (_name : PyVal) : List String × Except PyError PyVal :=
  ([], .error (.notImplementedError "find_volume not implemented by this provider"))

/-- The payload of `cinder.volumes.create(size, name=…, availability_zone=…,
snapshot_id=…)`. -/
structure CinderVolumesCreateCall where
  size : Nat
  name : String
  availability_zone : PyVal
  snapshot_id : PyVal
  deriving DecidableEq, Repr

/-- `OpenStackVolumeService.create_volume` up to the backend call it issues:

```python
zone_name = zone.name if isinstance(zone, PlacementZone) else zone
snapshot_id = snapshot.snapshot_id if isinstance(
    zone, OpenStackSnapshot) and snapshot else snapshot
```

Note the second `isinstance` inspects `zone`, not `snapshot`. -/
def create_volume (name : String) (size : Nat) (zone snapshot : PyVal) :
    Except PyError CinderVolumesCreateCall := do
  let zone_name ← if zone.isPlacementZone then zone.getAttr "name" else pure zone
  let snapshot_id ←
    if zone.isOSSnapshot && snapshot.truthy then snapshot.getAttr "snapshot_id"
    else pure snapshot
  return ⟨size, name, zone_name, snapshot_id⟩

/-- `OpenStackVolumeService.create_volume`, result stage: the value returned
by `cinder.volumes.create` (`none` = falsy) is wrapped in `OpenStackVolume`
unconditionally; the outer `Option` is the service's own return (`none` would
be the service returning `None`, which this method never does). -/
def create_volume_result (os_vol : Option VolRecord) : Option OpenStackVolume :=
  some ⟨os_vol⟩

/-! ## OpenStackSnapshotService -/

/-- `OpenStackSnapshotService.get_snapshot`: wraps
`cinder.volume_snapshots.get(snapshot_id)`, catching only `cinderclient`'s
`NotFound` (returning `None`); other backend errors propagate. -/
def get_snapshot (backendResult : Except BackendError (Option SnapRecord)) :
    Except BackendError (Option OpenStackSnapshot) :=
  match backendResult with
  | .ok r => .ok (some ⟨r⟩)
  | .error .cinderNotFound => .ok Option.none
  | .error e => .error e

/-- `OpenStackSnapshotService.find_snapshot`: unconditionally raises
`NotImplementedError` (with the message copied from `find_volume` in the
source); no backend endpoint is invoked. -/
def find_snapshot (_name : PyVal) : List String × Except PyError PyVal :=
  ([], .error (.notImplementedError "find_volume not implemented by this provider"))

/-- The payload of `cinder.volume_snapshots.create(volume_id, name=…,
description=…)`. -/
structure CinderSnapshotsCreateCall where
  volume_id : PyVal
  name : String
  description : PyVal
  deriving DecidableEq, Repr

/-- `OpenStackSnapshotService.create_snapshot` up to the backend call:
`volume_id = volume.volume_id if isinstance(volume, OpenStackVolume) else
volume`. -/
def create_snapshot (name : String) (volume description : PyVal) :
    Except PyError CinderSnapshotsCreateCall := do
  let volume_id ← if volume.isOSVolume then volume.getAttr "volume_id" else pure volume
  return ⟨volume_id, name, description⟩

/-- `OpenStackSnapshotService.create_snapshot`, result stage: the value
returned by `cinder.volume_snapshots.create` is wrapped in `OpenStackSnapshot`
unconditionally. -/
def create_snapshot_result (os_snap : Option SnapRecord) : Option OpenStackSnapshot :=
  some ⟨os_snap⟩

/-! ## OpenStackComputeService -/

/-- The payload of `nova.servers.create(name, image_id, instance_size,
min_count=1, max_count=1, availability_zone=…, key_name=…,
security_groups=…, userdata=…)`. -/
structure NovaServersCreateCall where
  name : String
  image : PyVal
  flavor : PyVal
  min_count : Nat
  max_count : Nat
  availability_zone : PyVal
  key_name : PyVal
  security_groups : PyVal
  userdata : PyVal
  deriving DecidableEq, Repr

/-- Python view of `find_by_name`'s result: the wrapped instance type, or
`None`. -/
def optInstanceTypeToPy : Option OpenStackInstanceType → PyVal
  | some it => .instanceType it.id it.name
  | Option.none => .none

/-- `sg.name` for an element of the `security_groups` list: a domain object
yields its name, a plain string has no `name` attribute. -/
def sgItemName : SGItem → Except PyError String
  | .sg _ n _ => .ok n
  | .strv _ => .error .attributeError

/-- The list comprehension `[sg.name for sg in security_groups]`: evaluates
`sg.name` left to right, raising on the first element without the
attribute. -/
def sgNames : List SGItem → Except PyError (List String)
  | [] => .ok []
  | item :: rest => do
      let n ← sgItemName item
      let ns ← sgNames rest
      pure (n :: ns)

/-- The `security_groups` normalization block of `create_instance`:

```python
if security_groups:
    if isinstance(security_groups, list) and \
            isinstance(security_groups[0], SecurityGroup):
        security_groups_list = [sg.name for sg in security_groups]
    else:
        security_groups_list = security_groups
else:
    security_groups_list = None
```
-/
def resolve_security_groups (security_groups : PyVal) : Except PyError PyVal :=
  if security_groups.truthy then
    match security_groups with
    | .list (SGItem.sg hid hname hdesc :: rest) => do
        let names ← sgNames (SGItem.sg hid hname hdesc :: rest)
        pure (PyVal.list (names.map SGItem.strv))
    | v => pure v
  else pure PyVal.none

/-- `OpenStackComputeService.create_instance` up to the backend call,
resolving the arguments in source order:

```python
image_id = image.image_id if isinstance(image, MachineImage) else image
instance_size = instance_type.name if \
    isinstance(instance_type, InstanceType) else \
    self.instance_types.find_by_name(instance_type).id
zone_name = zone.name if isinstance(zone, PlacementZone) else zone
keypair_name = keypair.name if isinstance(keypair, KeyPair) else keypair
```

`flavors` is the state of `nova.flavors.list()` consulted by
`find_by_name`. -/
def create_instance (flavors : List FlavorRecord) (name : String)
    (image instance_type zone keypair security_groups user_data : PyVal) :
    Except PyError NovaServersCreateCall := do
  let image_id ← if image.isMachineImage then image.getAttr "image_id" else pure image
  let instance_size ←
    if instance_type.isInstanceType then instance_type.getAttr "name"
    else (optInstanceTypeToPy (find_by_name flavors instance_type)).getAttr "id"
  let zone_name ← if zone.isPlacementZone then zone.getAttr "name" else pure zone
  let keypair_name ← if keypair.isKeyPair then keypair.getAttr "name" else pure keypair
  let security_groups_list ← resolve_security_groups security_groups
  return ⟨name, image_id, instance_size, 1, 1, zone_name, keypair_name,
    security_groups_list, user_data⟩

/-- `OpenStackComputeService.list_instances`. -/
def list_instances (servers : List ServerRecord) : List OpenStackInstance :=
  servers.map fun server => ⟨some server⟩

/-- The payload of `nova.availability_zones.list(detailed=…)`. -/
structure AvailabilityZonesListCall where
  detailed : Bool
  deriving DecidableEq, Repr

/-- `OpenStackComputeService.list_regions`: calls
`nova.availability_zones.list(detailed=False)` and wraps each record in an
`OpenStackRegion`. -/
def list_regions (azs : List AZRecord) : AvailabilityZonesListCall × List OpenStackRegion :=
  (⟨false⟩, azs.map OpenStackRegion.mk)

/-- `OpenStackComputeService.get_instance`: wraps
`nova.servers.get(instance_id)`, catching only `novaclient`'s `NotFound`
(returning `None`); other backend errors propagate. -/
def get_instance (backendResult : Except BackendError (Option ServerRecord)) :
    Except BackendError (Option OpenStackInstance) :=
  match backendResult with
  | .ok r => .ok (some ⟨r⟩)
  | .error .novaNotFound => .ok Option.none
  | .error e => .error e

/-! ## GCE key-pair helper (`helpers.py`) -/

/-- Serialization encodings of the `cryptography` library. -/
inductive CryptEncoding where
  | pem
  | der
  | openSSH
  deriving DecidableEq, Repr

/-- Private-key serialization formats. -/
inductive PrivateFormat where
  | pkcs8
  | traditionalOpenSSL
  deriving DecidableEq, Repr

/-- Public-key serialization formats. -/
inductive PublicFormat where
  | openSSH
  | subjectPublicKeyInfo
  deriving DecidableEq, Repr

/-- Private-key encryption algorithms. -/
inductive KeyEncryption where
  | noEncryption
  | bestAvailableEncryption
  deriving DecidableEq, Repr

/-- The `cryptography` library as an abstract collaborator, parametric in its
opaque key-object type `K`; byte strings are `List Nat`. -/
structure RSALib (K : Type) where
  generate_private_key : (publicExponent : Nat) → (keySize : Nat) → K
  private_bytes : K → CryptEncoding → PrivateFormat → KeyEncryption → List Nat
  public_bytes : K → CryptEncoding → PublicFormat → List Nat

/-- A call made into the `cryptography` library. -/
inductive CryptCall where
  | generatePrivateKey (publicExponent keySize : Nat)
  | privateBytes (enc : CryptEncoding) (fmt : PrivateFormat) (alg : KeyEncryption)
  | publicBytes (enc : CryptEncoding) (fmt : PublicFormat)
  deriving DecidableEq, Repr

/-- `generate_key_pair` from `gce/helpers.py`: generates a 2048-bit RSA key
(public exponent 65537), serializes the private part as PEM/PKCS8 with no
encryption and the public part as OpenSSH, returning the byte-string pair
together with the trace of crypto-library calls made. -/
def generate_key_pair {K : Type} (lib : RSALib K) :
    (List Nat × List Nat) × List CryptCall :=
  let key_pair := lib.generate_private_key 65537 2048
  let private_key := lib.private_bytes key_pair .pem .pkcs8 .noEncryption
  let public_key := lib.public_bytes key_pair .openSSH .openSSH
  ((private_key, public_key),
   [.generatePrivateKey 65537 2048,
    .privateBytes .pem .pkcs8 .noEncryption,
    .publicBytes .openSSH .openSSH])

/-! ## Helper lemmas -/

/-- `find_by_name` returns `None` when no listed flavor bears the name. -/
theorem find_by_name_eq_none (flavors : List FlavorRecord) (name : String)
    (h : ∀ f ∈ flavors, f.name ≠ name) :
    find_by_name flavors (.str name) = Option.none := by
  induction flavors with
  | nil => rfl
  | cons f fs ih =>
    have hf : f.name ≠ name := h f (List.mem_cons_self f fs)
    have hbeq : (PyVal.str (OpenStackInstanceType.mk f).name == PyVal.str name) = false := by
      simp [OpenStackInstanceType.name, hf]
    simp only [find_by_name, instance_types_list, List.map_cons, List.find?_cons, hbeq]
    exact ih fun g hg => h g (List.mem_cons_of_mem f hg)

/-- `find_by_name` returns the first flavor with the given name. -/
theorem find_by_name_first (pre : List FlavorRecord) (f : FlavorRecord)
    (post : List FlavorRecord) (name : String) (hf : f.name = name)
    (hpre : ∀ g ∈ pre, g.name ≠ name) :
    find_by_name (pre ++ f :: post) (.str name) = some ⟨f⟩ := by
  induction pre with
  | nil =>
    have hbeq : (PyVal.str (OpenStackInstanceType.mk f).name == PyVal.str name) = true := by
      simp [OpenStackInstanceType.name, hf]
    simp only [List.nil_append, find_by_name, instance_types_list, List.map_cons,
      List.find?_cons, hbeq]
  | cons g gs ih =>
    have hg : g.name ≠ name := hpre g (List.mem_cons_self g gs)
    have hbeq : (PyVal.str (OpenStackInstanceType.mk g).name == PyVal.str name) = false := by
      simp [OpenStackInstanceType.name, hg]
    simp only [List.cons_append, find_by_name, instance_types_list, List.map_cons,
      List.find?_cons, hbeq]
    exact ih fun x hx => hpre x (List.mem_cons_of_mem g hx)

/-- Mapping `sg.name` over a list of domain security-group objects yields
their names. -/
theorem sgNames_map (gs : List BaseSecurityGroup) :
    sgNames (gs.map fun x => SGItem.sg x.id x.name x.description) =
      Except.ok (gs.map BaseSecurityGroup.name) := by
  induction gs with
  | nil => rfl
  | cons g gs ih =>
    simp [List.map_cons, sgNames, sgItemName, ih, Bind.bind, Except.bind, Pure.pure, Except.pure]

/-- `resolve_security_groups` on a non-empty list of domain objects yields the
list of their plain names. -/
theorem resolve_security_groups_objects (g : BaseSecurityGroup)
    (gs : List BaseSecurityGroup) :
    resolve_security_groups
        (.list ((g :: gs).map fun x => SGItem.sg x.id x.name x.description)) =
      Except.ok (PyVal.list (((g :: gs).map BaseSecurityGroup.name).map SGItem.strv)) := by
  have h := sgNames_map (g :: gs)
  simp only [List.map_cons] at h
  simp [resolve_security_groups, PyVal.truthy, h]

/-! ## Claim theorems -/

/-- Claim C1: the claim says every get-by-id service (security groups,
images, volumes, snapshots, instances) maps a backend not-found signal to
`None` and never lets a not-found exception reach the caller. The code does
so for images, volumes, snapshots and instances, but
`OpenStackSecurityGroupService.get` has no try/except: the nova client's
`NotFound` propagates to the caller, contradicting the method's own
docstring ("If found, return SecurityGroup object. Else, return None"). -/
theorem c1_get_by_id_not_found :
    get_image (.error .novaNotFound) = .ok Option.none ∧
    get_volume (.error .cinderNotFound) = .ok Option.none ∧
    get_snapshot (.error .cinderNotFound) = .ok Option.none ∧
    get_instance (.error .novaNotFound) = .ok Option.none ∧
    securityGroupGet (.error .novaNotFound) = .error BackendError.novaNotFound :=
  ⟨rfl, rfl, rfl, rfl, rfl⟩

/-- Claim C2: the claim says `create_volume` called with a domain `Snapshot`
object passes that snapshot's `snapshot_id` string to the backend for any
value of the zone argument. The code's resolution branch tests
`isinstance(zone, OpenStackSnapshot)` — the zone's type, not the
snapshot's — so with an ordinary zone (here the string `"nova"`) the
snapshot object itself is passed through as the `snapshot_id` payload;
the id string is extracted only in the nonsensical case where the zone
argument is itself a snapshot object. -/
theorem c2_create_volume_snapshot_resolution :
    create_volume "vol" 1 (PyVal.str "nova") (PyVal.osSnapshot "snap-1") =
      Except.ok ⟨1, "vol", PyVal.str "nova", PyVal.osSnapshot "snap-1"⟩ ∧
    PyVal.osSnapshot "snap-1" ≠ PyVal.str "snap-1" ∧
    create_volume "vol" 1 (PyVal.osSnapshot "zone-snap") (PyVal.osSnapshot "snap-1") =
      Except.ok ⟨1, "vol", PyVal.osSnapshot "zone-snap", PyVal.str "snap-1"⟩ :=
  ⟨rfl, by decide, rfl⟩

/-- Claim C3 (counterexample): passing an `InstanceType` domain object to
`create_instance` does not produce the same backend call as passing its bare
identifier — the object resolves to its *name* while a bare string is looked
up by name (so the flavor id `"42"` matches no name and the lookup's `None`
gets `.id` taken on it, raising `AttributeError`). -/
theorem c3_object_vs_id_counterexample :
    create_instance [⟨"42", "m1.small"⟩] "srv" (.str "img-1")
        (.instanceType "42" "m1.small") .none .none .none .none ≠
      create_instance [⟨"42", "m1.small"⟩] "srv" (.str "img-1")
        (.str "42") .none .none .none .none := by decide

/-- Claim C3 (amended): object-for-identifier substitution yields an
identical backend call (hence an identical wrapped result) for the image,
zone and keypair parameters of `create_instance`, the zone parameter of
`create_volume`, and the volume parameter of `create_snapshot`; it fails for
`create_instance`'s instance-type parameter (object resolves to its name, a
string is treated as a name to look up) and for `create_volume`'s snapshot
parameter (left unresolved unless the zone argument is a snapshot object). -/
theorem c3_object_vs_id_amended (flavors : List FlavorRecord)
    (name iid zn kn vid : String) (size : Nat)
    (it z k s u snapshot descr : PyVal) :
    create_instance flavors name (.machineImage iid) it z k s u =
      create_instance flavors name (.str iid) it z k s u ∧
    create_instance flavors name (.str iid) it (.placementZone zn) k s u =
      create_instance flavors name (.str iid) it (.str zn) k s u ∧
    create_instance flavors name (.str iid) it z (.keyPair kn) s u =
      create_instance flavors name (.str iid) it z (.str kn) s u ∧
    create_volume name size (.placementZone zn) snapshot =
      create_volume name size (.str zn) snapshot ∧
    create_snapshot name (.osVolume vid) descr =
      create_snapshot name (.str vid) descr :=
  ⟨rfl, rfl, rfl, rfl, rfl⟩

/-- Claim C4 (counterexample): the claim says `create_volume` and
`create_snapshot` return `None` when the backend create call returns a falsy
record; in the code both wrap the falsy record unconditionally, so the
service returns a wrapper object, not `None`. -/
theorem c4_falsy_create_counterexample :
    create_volume_result Option.none ≠ Option.none ∧
    create_snapshot_result Option.none ≠ Option.none :=
  ⟨fun h => Option.noConfusion h, fun h => Option.noConfusion h⟩

/-- Claim C4 (amended): only security-group `create` checks the backend
record's truthiness and returns `None` on a falsy record; `create_volume` and
`create_snapshot` wrap whatever the backend returned, falsy included. -/
theorem c4_falsy_create_amended (name description : String) :
    securityGroupCreate name description Option.none = Option.none ∧
    create_volume_result Option.none = some ⟨Option.none⟩ ∧
    create_snapshot_result Option.none = some ⟨Option.none⟩ :=
  ⟨rfl, rfl, rfl⟩

/-- Claim C5: for every input, `find_image`, `find_volume` and
`find_snapshot` raise `NotImplementedError` ("not supported by this
provider"), return no value, and invoke no backend endpoint (the first
component, the trace of backend endpoints called, is empty). -/
theorem c5_find_unsupported (name : PyVal) :
    find_image name = ([], Except.error (PyError.notImplementedError
      "find_image not implemented by this provider")) ∧
    find_volume name = ([], Except.error (PyError.notImplementedError
      "find_volume not implemented by this provider")) ∧
    find_snapshot name = ([], Except.error (PyError.notImplementedError
      "find_volume not implemented by this provider")) :=
  ⟨rfl, rfl, rfl⟩

/-- Claim C6: `find_by_name` returns `None` when no listed flavor has the
given name, and returns the first flavor in `list()` order with that name
(exactly one result, first match wins) when one or more match. -/
theorem c6_find_by_name_spec (flavors : List FlavorRecord) (name : String) :
    ((∀ f ∈ flavors, f.name ≠ name) →
      find_by_name flavors (.str name) = Option.none) ∧
    (∀ pre f post, flavors = pre ++ f :: post → f.name = name →
      (∀ g ∈ pre, g.name ≠ name) →
      find_by_name flavors (.str name) = some ⟨f⟩) :=
  ⟨fun h => find_by_name_eq_none flavors name h,
   fun pre f post hsplit hf hpre => hsplit ▸ find_by_name_first pre f post name hf hpre⟩

/-- Claim C6 (witness): on a concrete flavor list with duplicate names,
`find_by_name` returns `None` for an absent name and the first of the two
duplicates for a present one. -/
theorem c6_find_by_name_spec_witness :
    find_by_name [⟨"1", "small"⟩, ⟨"2", "med"⟩, ⟨"3", "med"⟩] (.str "absent") =
      Option.none ∧
    find_by_name [⟨"1", "small"⟩, ⟨"2", "med"⟩, ⟨"3", "med"⟩] (.str "med") =
      some ⟨⟨"2", "med"⟩⟩ :=
  ⟨(c6_find_by_name_spec [⟨"1", "small"⟩, ⟨"2", "med"⟩, ⟨"3", "med"⟩] "absent").1
      (by decide),
   (c6_find_by_name_spec [⟨"1", "small"⟩, ⟨"2", "med"⟩, ⟨"3", "med"⟩] "med").2
      [⟨"1", "small"⟩] ⟨"2", "med"⟩ [⟨"3", "med"⟩] rfl rfl (by decide)⟩

/-- Claim C7: for every non-empty list of domain `SecurityGroup` objects,
`create_instance` issues the backend call with the list of their plain name
strings; with `None` or an empty list as the `security_groups` argument the
backend receives `None`. -/
theorem c7_security_groups_normalization (flavors : List FlavorRecord)
    (name iid itid itname : String) (ud : PyVal)
    (sgs : List BaseSecurityGroup) (h : sgs ≠ []) :
    create_instance flavors name (.str iid) (.instanceType itid itname) .none .none
        (.list (sgs.map fun x => SGItem.sg x.id x.name x.description)) ud =
      Except.ok ⟨name, .str iid, .str itname, 1, 1, .none, .none,
        .list ((sgs.map BaseSecurityGroup.name).map SGItem.strv), ud⟩ ∧
    create_instance flavors name (.str iid) (.instanceType itid itname) .none .none
        .none ud =
      Except.ok ⟨name, .str iid, .str itname, 1, 1, .none, .none, .none, ud⟩ ∧
    create_instance flavors name (.str iid) (.instanceType itid itname) .none .none
        (.list []) ud =
      Except.ok ⟨name, .str iid, .str itname, 1, 1, .none, .none, .none, ud⟩ := by
  refine ⟨?_, rfl, rfl⟩
  obtain ⟨g, gs, rfl⟩ := List.exists_cons_of_ne_nil h
  have hres := resolve_security_groups_objects g gs
  simp only [List.map_cons] at hres
  simp [create_instance, hres, PyVal.getAttr, PyVal.isMachineImage,
    PyVal.isInstanceType, PyVal.isPlacementZone, PyVal.isKeyPair,
    Bind.bind, Except.bind, Pure.pure, Except.pure, Function.comp]

/-- Claim C7 (witness): concrete instantiation with two domain security
groups — the backend call carries their plain names. -/
theorem c7_security_groups_normalization_witness :
    create_instance [] "srv" (.str "img-1") (.instanceType "1" "m1") .none .none
        (.list [SGItem.sg "sg-1" "web" "d1", SGItem.sg "sg-2" "db" "d2"]) .none =
      Except.ok ⟨"srv", .str "img-1", .str "m1", 1, 1, .none, .none,
        .list [SGItem.strv "web", SGItem.strv "db"], .none⟩ :=
  (c7_security_groups_normalization [] "srv" "img-1" "1" "m1" .none
    [⟨"sg-1", "web", "d1"⟩, ⟨"sg-2", "db", "d2"⟩] (by decide)).1

/-- Claim C8: `list_regions` issues the availability-zone listing with
`detailed=False` (never the privileged detailed mode) and wraps each record
in an `OpenStackRegion`. -/
theorem c8_list_regions_not_detailed (azs : List AZRecord) :
    (list_regions azs).1.detailed = false ∧
    (list_regions azs).2 = azs.map OpenStackRegion.mk :=
  ⟨rfl, rfl⟩

/-- Claim C9: `generate_key_pair` takes no input besides the crypto library
itself, calls `generate_private_key` with public exponent 65537 and key size
2048, serializes the private key as PEM/PKCS8 with no encryption and the
public key as OpenSSH/OpenSSH, and returns the resulting
(private bytes, public bytes) pair. -/
theorem c9_generate_key_pair_parameters {K : Type} (lib : RSALib K) :
    (generate_key_pair lib).2 =
      [CryptCall.generatePrivateKey 65537 2048,
       CryptCall.privateBytes CryptEncoding.pem PrivateFormat.pkcs8
         KeyEncryption.noEncryption,
       CryptCall.publicBytes CryptEncoding.openSSH PublicFormat.openSSH] ∧
    (generate_key_pair lib).1 =
      (lib.private_bytes (lib.generate_private_key 65537 2048)
         CryptEncoding.pem PrivateFormat.pkcs8 KeyEncryption.noEncryption,
       lib.public_bytes (lib.generate_private_key 65537 2048)
         CryptEncoding.openSSH PublicFormat.openSSH) :=
  ⟨rfl, rfl⟩

/-- Claim C10: `create_instance` given a plain string instance type that
names no listed flavor raises `AttributeError` (`find_by_name` returns
`None` and `.id` is taken on it) and no backend server-creation call is
issued (the embedding produces a call payload only on success). -/
theorem c10_unknown_instance_type_name (flavors : List FlavorRecord)
    (name img s : String) (zone keypair sgs ud : PyVal)
    (h : ∀ f ∈ flavors, f.name ≠ s) :
    create_instance flavors name (.str img) (.str s) zone keypair sgs ud =
      Except.error PyError.attributeError := by
  have hfind := find_by_name_eq_none flavors s h
  simp [create_instance, hfind, optInstanceTypeToPy, PyVal.getAttr, PyVal.isMachineImage,
    PyVal.isInstanceType, Bind.bind, Except.bind, Pure.pure, Except.pure]

/-- Claim C10 (witness): with one flavor `m1.small`, asking for instance
type `"bogus"` raises `AttributeError`. -/
theorem c10_unknown_instance_type_name_witness :
    create_instance [⟨"1", "m1.small"⟩] "srv" (.str "img-1") (.str "bogus")
        .none .none .none .none = Except.error PyError.attributeError :=
  c10_unknown_instance_type_name [⟨"1", "m1.small"⟩] "srv" "img-1" "bogus"
    .none .none .none .none (by decide)

end CloudBridge
